import Mathlib

/-!
Shallow embedding of the chat-ai application, covering:
  * `app/api/chat/route.ts` — provider routing, credential resolution,
    attachment formatting, and the POST handler's validation pipeline;
  * `app/api/generate-title/route.ts` — the deterministic fallback title;
  * `store/index.ts` — the Zustand conversation store mutations;
  * `lib/storage.ts` — loading persisted conversation documents;
  * `components/chat/ChatContainer.tsx` — the completion-commit guard
    (`onFinish`) and regenerate truncation (`handleRegenerate`).

JavaScript `Date` values are modelled as `Nat` timestamps passed explicitly
(`now`); absent / `undefined` fields as `Option`; JS truthiness of strings
(`""` is falsy) is modelled explicitly where the code relies on it.
-/

namespace ChatAI

/-- `types/index.ts` — `MessageRole`. -/
inductive MessageRole
  | user
  | assistant
  | system
  deriving DecidableEq, Repr

/-- `types/index.ts` — `AttachmentType`. -/
inductive AttachmentType
  | image
  | document
  deriving DecidableEq, Repr

/-- `types/index.ts` — `Attachment`. `preview` is irrelevant to the claims
and omitted nowhere: it is carried for faithfulness. -/
structure Attachment where
  id : String
  type : AttachmentType
  name : String
  mimeType : String
  data : String
  preview : Option String
  deriving DecidableEq, Repr

/-- `types/index.ts` — `Message`. `createdAt : Date` is a `Nat` timestamp. -/
structure Message where
  id : String
  role : MessageRole
  content : String
  attachments : Option (List Attachment)
  createdAt : Nat
  deriving DecidableEq, Repr

/-- `types/index.ts` — `Conversation`. Dates are `Nat` timestamps. -/
structure Conversation where
  id : String
  title : String
  messages : List Message
  model : String
  systemPrompt : Option String
  isPinned : Bool
  isArchived : Bool
  createdAt : Nat
  updatedAt : Nat
  deriving DecidableEq, Repr

/-! ## app/api/chat/route.ts -/

/-- The AI-SDK provider clients created by the route:
`createOpenAI` / `createAnthropic` / `createGoogleGenerativeAI`,
each closed over the api key it was given. -/
inductive Provider
  | openai (apiKey : String)
  | anthropic (apiKey : String)
  | google (apiKey : String)
  deriving DecidableEq, Repr

/-- JS `String.prototype.startsWith`, modelled on the character list. -/
def jsStartsWith (s p : String) : Bool :=
  p.toList.isPrefixOf s.toList

/-- `getProviderForModel` — routes by model-id prefix, throwing
`Unknown model: ...` when no prefix matches. -/
def getProviderForModel (model : String) (apiKey : String) :
    Except String Provider :=
  if jsStartsWith model "gpt" then .ok (.openai apiKey)
  else if jsStartsWith model "claude" then .ok (.anthropic apiKey)
  else if jsStartsWith model "gemini" then .ok (.google apiKey)
  else .error ("Unknown model: " ++ model)

/-- The three credential request headers read by the route
(`x-openai-api-key`, `x-anthropic-api-key`, `x-google-api-key`);
`none` models `headers.get` returning `null`. -/
structure HeaderMap where
  openaiKey : Option String
  anthropicKey : Option String
  googleKey : Option String
  deriving DecidableEq, Repr

/-- The three environment credentials read by the route
(`OPENAI_API_KEY`, `ANTHROPIC_API_KEY`, `GOOGLE_GENERATIVE_AI_API_KEY`);
`none` models an unset variable. -/
structure Env where
  openaiKey : Option String
  anthropicKey : Option String
  googleKey : Option String
  deriving DecidableEq, Repr

/-- JS `a || b` on a nullable string: `a` when it is present and non-empty
(truthy), otherwise `b` as-is. -/
def jsOr (a b : Option String) : Option String :=
  match a with
  | some s => if s = "" then b else some s
  | none => b

/-- `getApiKey` — header value takes precedence over the environment
variable for the provider matching the model prefix; `undefined` for an
unrecognized prefix. -/
def getApiKey (model : String) (headers : HeaderMap) (env : Env) :
    Option String :=
  if jsStartsWith model "gpt" then jsOr headers.openaiKey env.openaiKey
  else if jsStartsWith model "claude" then jsOr headers.anthropicKey env.anthropicKey
  else if jsStartsWith model "gemini" then jsOr headers.googleKey env.googleKey
  else none

/-- The `TextPart` / `ImagePart` content parts of the AI SDK's
`CoreMessage`. -/
inductive Part
  | text (text : String)
  | image (image : String) (mimeType : String)
  deriving DecidableEq, Repr

/-- `CoreMessage` as the route builds it: a plain-text user message, a
multi-part user message, or a plain-text assistant message. -/
inductive CoreMessage
  | userText (content : String)
  | userParts (content : List Part)
  | assistantText (content : String)
  deriving DecidableEq, Repr

/-- `convertAttachmentToContent` — images become `ImagePart`s; documents
become a text part with the base64-decoded content. Node's
`Buffer.from(data, 'base64').toString('utf-8')` never throws, so the catch
branch is unreachable; the decoder is passed in as `decode`. -/
def convertAttachmentToContent (decode : String → String)
    (attachment : Attachment) : Part :=
  match attachment.type with
  | .image => .image attachment.data attachment.mimeType
  | .document =>
      .text ("[Document: " ++ attachment.name ++ "]\n" ++ decode attachment.data)

/-- The per-message body of `formatMessagesWithAttachments`: without
attachments, a plain text message of the message's role; with attachments,
a multi-part message for users (optional leading text part, then one part
per attachment) and plain text for assistants. Roles other than `user`
fall in the assistant branch, as in the source's `else`. -/
def formatMessage (decode : String → String) (message : Message) :
    CoreMessage :=
  match message.attachments with
  | none =>
      if message.role = .user then .userText message.content
      else .assistantText message.content
  | some atts =>
      if atts.isEmpty then
        if message.role = .user then .userText message.content
        else .assistantText message.content
      else
        let contentParts :=
          (if message.content ≠ "" then [Part.text message.content] else [])
            ++ atts.map (convertAttachmentToContent decode)
        if message.role = .user then .userParts contentParts
        else .assistantText message.content

/-- `formatMessagesWithAttachments` — `messages.map (...)`. -/
def formatMessagesWithAttachments (decode : String → String)
    (messages : List Message) : List CoreMessage :=
  messages.map (formatMessage decode)

/-- `ChatRequest` as the POST handler destructures it; `none` models an
absent field. -/
structure ChatRequest where
  messages : Option (List Message)
  model : Option String
  systemPrompt : Option String
  deriving Repr

/-- The outcome of the POST handler's synchronous validation pipeline:
either the arguments `streamText` is called with, or an error response
(status, body message). -/
inductive ChatResult
  | ok (provider : Provider) (system : Option String)
      (messages : List CoreMessage)
  | err (status : Nat) (message : String)
  deriving DecidableEq, Repr

/-- `POST /api/chat` up to the `streamText` call, embedding the code's
validation order: absent/non-array `messages` → 400; falsy `model` → 400;
falsy api key → 401; unknown model prefix → 400. `systemPrompt ||
undefined` maps an empty prompt to `none`. -/
def chatPOST (decode : String → String) (req : ChatRequest)
    (headers : HeaderMap) (env : Env) : ChatResult :=
  match req.messages with
  | none => .err 400 "Messages array is required"
  | some messages =>
      match req.model with
      | none => .err 400 "Model is required"
      | some model =>
          if model = "" then .err 400 "Model is required"
          else
            match getApiKey model headers env with
            | none => .err 401 "API key not configured"
            | some apiKey =>
                if apiKey = "" then .err 401 "API key not configured"
                else
                  match getProviderForModel model apiKey with
                  | .error _ => .err 400 ("Unknown model: " ++ model)
                  | .ok provider =>
                      .ok provider
                        (match req.systemPrompt with
                         | some s => if s = "" then none else some s
                         | none => none)
                        (formatMessagesWithAttachments decode messages)

/-! ## store/index.ts -/

/-- The conversation slice of the Zustand store state. -/
structure StoreState where
  conversations : List Conversation
  currentConversationId : Option String
  deriving DecidableEq, Repr

/-- `Partial<Conversation>` as accepted by `updateConversation`: every field
optional; a `some` entry overrides the conversation's field on spread. -/
structure ConversationUpdate where
  id : Option String := none
  title : Option String := none
  messages : Option (List Message) := none
  model : Option String := none
  systemPrompt : Option (Option String) := none
  isPinned : Option Bool := none
  isArchived : Option Bool := none
  createdAt : Option Nat := none
  updatedAt : Option Nat := none
  deriving Repr

/-- The JS spread `{ ...c, ...updates }`. -/
def applyUpdate (c : Conversation) (u : ConversationUpdate) : Conversation :=
  { id := u.id.getD c.id
    title := u.title.getD c.title
    messages := u.messages.getD c.messages
    model := u.model.getD c.model
    systemPrompt := u.systemPrompt.getD c.systemPrompt
    isPinned := u.isPinned.getD c.isPinned
    isArchived := u.isArchived.getD c.isArchived
    createdAt := u.createdAt.getD c.createdAt
    updatedAt := u.updatedAt.getD c.updatedAt }

/-- `deleteConversation` — filters the conversation out; when it was the
current one, selects the first remaining conversation or `null`. -/
def deleteConversation (id : String) (s : StoreState) : StoreState :=
  let newConversations := s.conversations.filter (fun c => c.id ≠ id)
  let newCurrentId :=
    if s.currentConversationId = some id then
      match newConversations with
      | [] => none
      | c :: _ => some c.id
    else s.currentConversationId
  { conversations := newConversations, currentConversationId := newCurrentId }

/-- `updateConversation` — spreads `updates` over the matching conversation
and stamps `updatedAt` with the current time. -/
def updateConversation (id : String) (updates : ConversationUpdate)
    (now : Nat) (s : StoreState) : StoreState :=
  { s with conversations :=
      s.conversations.map (fun c =>
        if c.id = id then { applyUpdate c updates with updatedAt := now }
        else c) }

/-- `pinConversation` — toggles `isPinned` on the matching conversation. -/
def pinConversation (id : String) (now : Nat) (s : StoreState) : StoreState :=
  { s with conversations :=
      s.conversations.map (fun c =>
        if c.id = id then { c with isPinned := !c.isPinned, updatedAt := now }
        else c) }

/-- `archiveConversation` — toggles `isArchived` on the matching
conversation. -/
def archiveConversation (id : String) (now : Nat) (s : StoreState) :
    StoreState :=
  { s with conversations :=
      s.conversations.map (fun c =>
        if c.id = id then { c with isArchived := !c.isArchived, updatedAt := now }
        else c) }

/-- `addMessage` — appends the message to the matching conversation. -/
def addMessage (conversationId : String) (message : Message) (now : Nat)
    (s : StoreState) : StoreState :=
  { s with conversations :=
      s.conversations.map (fun c =>
        if c.id = conversationId then
          { c with messages := c.messages ++ [message], updatedAt := now }
        else c) }

/-- `updateMessage` — replaces the content of the matching message inside
the matching conversation. -/
def updateMessage (conversationId messageId : String) (content : String)
    (now : Nat) (s : StoreState) : StoreState :=
  { s with conversations :=
      s.conversations.map (fun c =>
        if c.id = conversationId then
          { c with
            messages := c.messages.map (fun m =>
              if m.id = messageId then { m with content := content } else m)
            updatedAt := now }
        else c) }

/-! ## components/chat/ChatContainer.tsx -/

/-- A `useChat` message as `onFinish` / `handleRegenerate` see it. -/
structure UIMessage where
  id : String
  role : MessageRole
  content : String
  deriving DecidableEq, Repr

/-- The container's local state: the `savedMessageIds` dedupe ref (a JS
`Set`, kept duplicate-free), the `useChat` working history, and the store. -/
structure ContainerState where
  savedMessageIds : List String
  chatMessages : List UIMessage
  store : StoreState
  deriving Repr

/-- The synchronous commit path of the `useChat` `onFinish` callback: when a
conversation is active and the finished message id is not yet committed,
record the id and append the assistant message to the store. (The
asynchronous title-generation branch only touches the conversation title,
not the message list, and is not modelled here.) -/
def onFinish (convId : Option String) (message : UIMessage) (now : Nat)
    (s : ContainerState) : ContainerState :=
  match convId with
  | none => s
  | some cid =>
      if message.id ∈ s.savedMessageIds then s
      else
        { s with
          savedMessageIds := message.id :: s.savedMessageIds
          store := addMessage cid
            { id := message.id, role := .assistant,
              content := message.content, attachments := none,
              createdAt := now }
            now s.store }

/-- `handleRegenerate` — finds the target message in the working history;
if absent, does nothing; otherwise deletes its id from the dedupe set and
truncates the history strictly before it (`slice(0, idx)`). The subsequent
`reload()` network call is outside the embedded state. -/
def handleRegenerate (messageId : String) (s : ContainerState) :
    ContainerState :=
  match s.chatMessages.findIdx? (fun m => m.id = messageId) with
  | none => s
  | some idx =>
      { s with
        savedMessageIds := s.savedMessageIds.filter (fun x => x ≠ messageId)
        chatMessages := s.chatMessages.take idx }

/-- Measuring function for commit idempotency: how many messages with id
`mid` the conversations with id `cid` hold in total. -/
def msgIdCount (cid mid : String) : List Conversation → Nat
  | [] => 0
  | c :: rest =>
      (if c.id = cid then (c.messages.filter (fun m => m.id = mid)).length
       else 0) + msgIdCount cid mid rest

/-! ## app/api/generate-title/route.ts -/

/-- JS `\s` character class members relevant to the fallback title
(space, tab, newline, carriage return, vertical tab, form feed). -/
def jsWhitespace (c : Char) : Bool :=
  c = ' ' || c = '\t' || c = '\n' || c = '\r' || c = '\x0b' || c = '\x0c'

/-- `String.prototype.trim` on a character list. -/
def trimChars (l : List Char) : List Char :=
  ((l.dropWhile jsWhitespace).reverse.dropWhile jsWhitespace).reverse

/-- The worker for `replace(/\s+/g, ' ')`: `sawWs` records whether the
previous character was part of a whitespace run. -/
def collapseWsAux : Bool → List Char → List Char
  | _, [] => []
  | sawWs, c :: rest =>
      if jsWhitespace c then
        if sawWs then collapseWsAux true rest
        else ' ' :: collapseWsAux true rest
      else c :: collapseWsAux false rest

/-- `replace(/\s+/g, ' ')` — every maximal whitespace run becomes a single
space. -/
def collapseWs (l : List Char) : List Char :=
  collapseWsAux false l

/-- The sentence-terminal punctuation class `[。！？.!?]`. -/
def isSentenceEnd (c : Char) : Bool :=
  c = '。' || c = '！' || c = '？' || c = '.' || c = '!' || c = '?'

/-- `MAX_TITLE_LENGTH`. -/
def MAX_TITLE_LENGTH : Nat := 50

/-- The `search`/`substring` step of `generateFallbackTitle`: cut at the
first sentence-terminal mark when its index is strictly positive and below
50 (`search` returns -1 when absent, and the code requires
`sentenceEnd > 0 && sentenceEnd < MAX_TITLE_LENGTH`). -/
def titleAfterSentenceCut (title : List Char) : List Char :=
  match title.findIdx? isSentenceEnd with
  | some sentenceEnd =>
      if 0 < sentenceEnd ∧ sentenceEnd < MAX_TITLE_LENGTH then
        title.take (sentenceEnd + 1)
      else title
  | none => title

/-- The final truncation step of `generateFallbackTitle`: 47 characters
plus `'...'` when still longer than 50. -/
def truncateWithEllipsis (title : List Char) : List Char :=
  if title.length > MAX_TITLE_LENGTH then
    title.take (MAX_TITLE_LENGTH - 3) ++ "...".toList
  else title

/-- `generateFallbackTitle` on a character list: placeholder for blank
input; otherwise collapse whitespace, cut at the first early
sentence-terminal mark, then truncate with an ellipsis. -/
def generateFallbackTitleChars (message : List Char) : List Char :=
  if (trimChars message).isEmpty then "新对话".toList
  else truncateWithEllipsis (titleAfterSentenceCut (collapseWs (trimChars message)))

/-- `generateFallbackTitle` on strings. -/
def generateFallbackTitle (message : String) : String :=
  String.mk (generateFallbackTitleChars message.toList)

/-! ## lib/storage.ts -/

/-- A persisted document in the storage directory: either its contents
parse to a conversation or `JSON.parse` throws (`corrupt`). -/
inductive RawDoc
  | valid (c : Conversation)
  | corrupt
  deriving DecidableEq, Repr

/-- The body of the `Promise.all` mapper in `readConversations`:
`JSON.parse` on a corrupt document throws, rejecting the whole batch. -/
def parseDoc : RawDoc → Except String Conversation
  | .valid c => .ok c
  | .corrupt => .error "SyntaxError: Unexpected token in JSON"

/-- The comparator's effect in `readConversations`: sort by `updatedAt`
descending (stable, as `Array.prototype.sort` is in modern JS). -/
def sortByUpdatedAtDesc (l : List Conversation) : List Conversation :=
  l.mergeSort (fun a b => b.updatedAt ≤ a.updatedAt)

/-- `readConversations` — parses every `.json` document and sorts by
`updatedAt` descending; a single parse failure rejects the `Promise.all`
and the whole read throws. -/
def readConversations (docs : List RawDoc) : Except String (List Conversation) := do
  let conversations ← docs.mapM parseDoc
  return sortByUpdatedAtDesc conversations

/-! ## Helper lemmas -/

theorem jsStartsWith_exclusive (m p q : String)
    (hpq : ¬ p.toList <+: q.toList) (hqp : ¬ q.toList <+: p.toList)
    (h : jsStartsWith m p = true) :
    jsStartsWith m q = false := by
  by_contra hb
  have hq' : jsStartsWith m q = true := by
    cases hv : jsStartsWith m q with
    | false => exact absurd hv hb
    | true => rfl
  unfold jsStartsWith at h hq'
  rw [List.isPrefixOf_iff_prefix] at h hq'
  rcases List.prefix_or_prefix_of_prefix h hq' with hc | hc
  · exact hpq hc
  · exact hqp hc

theorem claude_not_gpt (m : String) (h : jsStartsWith m "claude" = true) :
    jsStartsWith m "gpt" = false :=
  jsStartsWith_exclusive m "claude" "gpt" (by decide) (by decide) h

theorem gemini_not_gpt (m : String) (h : jsStartsWith m "gemini" = true) :
    jsStartsWith m "gpt" = false :=
  jsStartsWith_exclusive m "gemini" "gpt" (by decide) (by decide) h

theorem gemini_not_claude (m : String) (h : jsStartsWith m "gemini" = true) :
    jsStartsWith m "claude" = false :=
  jsStartsWith_exclusive m "gemini" "claude" (by decide) (by decide) h

/-! ## C3 — model routing -/

/-- **C3, counterexample.** The claim says an unrecognized model prefix is
surfaced as a 400 response. On the code, `getApiKey` also recognizes only
the three prefixes, so for model `llama-3` the credential check fails
first and the endpoint answers 401 `API key not configured` — even with
every credential configured — and never the 400 `Unknown model` response. -/
theorem C3_counterexample :
    chatPOST (fun s => s)
      { messages := some [{ id := "m1", role := .user, content := "hi",
                            attachments := none, createdAt := 0 }],
        model := some "llama-3", systemPrompt := none }
      { openaiKey := some "hdr-openai", anthropicKey := some "hdr-anthropic",
        googleKey := some "hdr-google" }
      { openaiKey := some "env-openai", anthropicKey := some "env-anthropic",
        googleKey := some "env-google" }
      = .err 401 "API key not configured" ∧
    chatPOST (fun s => s)
      { messages := some [{ id := "m1", role := .user, content := "hi",
                            attachments := none, createdAt := 0 }],
        model := some "llama-3", systemPrompt := none }
      { openaiKey := some "hdr-openai", anthropicKey := some "hdr-anthropic",
        googleKey := some "hdr-google" }
      { openaiKey := some "env-openai", anthropicKey := some "env-anthropic",
        googleKey := some "env-google" }
      ≠ .err 400 ("Unknown model: " ++ "llama-3") := by
  exact ⟨rfl, by decide⟩

/-- **C3** (amended): `getProviderForModel` routes the `gpt` prefix to the
OpenAI client, `claude` to Anthropic, `gemini` to Google, and fails with
`Unknown model` on any other prefix, never defaulting; at the endpoint,
however, an unrecognized prefix is surfaced as a 401 missing-credential
response (credential resolution recognizes the same three prefixes and
fails first), not as a 400. -/
theorem C3_routing_totality (model apiKey : String) :
    (jsStartsWith model "gpt" = true →
      getProviderForModel model apiKey = .ok (.openai apiKey)) ∧
    (jsStartsWith model "claude" = true →
      getProviderForModel model apiKey = .ok (.anthropic apiKey)) ∧
    (jsStartsWith model "gemini" = true →
      getProviderForModel model apiKey = .ok (.google apiKey)) ∧
    (jsStartsWith model "gpt" = false → jsStartsWith model "claude" = false →
     jsStartsWith model "gemini" = false →
      getProviderForModel model apiKey = .error ("Unknown model: " ++ model)) ∧
    (∀ (decode : String → String) (msgs : List Message) (sys : Option String)
       (headers : HeaderMap) (env : Env),
      model ≠ "" →
      jsStartsWith model "gpt" = false → jsStartsWith model "claude" = false →
      jsStartsWith model "gemini" = false →
      chatPOST decode
        { messages := some msgs, model := some model, systemPrompt := sys }
        headers env = .err 401 "API key not configured") := by
  refine ⟨?_, ?_, ?_, ?_, ?_⟩
  · intro h
    simp [getProviderForModel, h]
  · intro h
    simp [getProviderForModel, claude_not_gpt model h, h]
  · intro h
    simp [getProviderForModel, gemini_not_gpt model h, gemini_not_claude model h, h]
  · intro h1 h2 h3
    simp [getProviderForModel, h1, h2, h3]
  · intro decode msgs sys headers env hne h1 h2 h3
    simp [chatPOST, hne, getApiKey, h1, h2, h3]

/-- **C3, witness.** -/
theorem C3_routing_totality_witness :
    getProviderForModel "gpt-4o" "k" = .ok (.openai "k") ∧
    getProviderForModel "claude-3-opus" "k" = .ok (.anthropic "k") ∧
    getProviderForModel "gemini-pro" "k" = .ok (.google "k") ∧
    getProviderForModel "llama-3" "k" = .error ("Unknown model: " ++ "llama-3") ∧
    chatPOST (fun s => s)
      { messages := some [], model := some "llama-3", systemPrompt := none }
      { openaiKey := none, anthropicKey := none, googleKey := none }
      { openaiKey := none, anthropicKey := none, googleKey := none }
      = .err 401 "API key not configured" := by
  refine ⟨(C3_routing_totality "gpt-4o" "k").1 (by decide),
          (C3_routing_totality "claude-3-opus" "k").2.1 (by decide),
          (C3_routing_totality "gemini-pro" "k").2.2.1 (by decide),
          (C3_routing_totality "llama-3" "k").2.2.2.1
            (by decide) (by decide) (by decide),
          (C3_routing_totality "llama-3" "k").2.2.2.2
            (fun s => s) [] none _ _
            (by decide) (by decide) (by decide) (by decide)⟩

/-! ## C4 — credential precedence -/

/-- **C4.** For each routed prefix, a present non-empty per-request header
credential wins over the environment credential; when both header and
environment credential are absent, resolution yields `none` and the
endpoint answers 401 with the fixed body `API key not configured`, a
constant that contains no credential value. -/
theorem C4_credential_precedence (model : String) (headers : HeaderMap)
    (env : Env) (hk : String) :
    (jsStartsWith model "gpt" = true → headers.openaiKey = some hk →
      hk ≠ "" → getApiKey model headers env = some hk) ∧
    (jsStartsWith model "claude" = true → headers.anthropicKey = some hk →
      hk ≠ "" → getApiKey model headers env = some hk) ∧
    (jsStartsWith model "gemini" = true → headers.googleKey = some hk →
      hk ≠ "" → getApiKey model headers env = some hk) ∧
    (jsStartsWith model "gpt" = true → headers.openaiKey = none →
      env.openaiKey = none → getApiKey model headers env = none) ∧
    (jsStartsWith model "claude" = true → headers.anthropicKey = none →
      env.anthropicKey = none → getApiKey model headers env = none) ∧
    (jsStartsWith model "gemini" = true → headers.googleKey = none →
      env.googleKey = none → getApiKey model headers env = none) ∧
    (∀ (decode : String → String) (msgs : List Message) (sys : Option String),
      model ≠ "" → getApiKey model headers env = none →
      chatPOST decode
        { messages := some msgs, model := some model, systemPrompt := sys }
        headers env = .err 401 "API key not configured") := by
  refine ⟨?_, ?_, ?_, ?_, ?_, ?_, ?_⟩
  · intro h hh hne
    simp [getApiKey, h, hh, jsOr, hne]
  · intro h hh hne
    simp [getApiKey, claude_not_gpt model h, h, hh, jsOr, hne]
  · intro h hh hne
    simp [getApiKey, gemini_not_gpt model h, gemini_not_claude model h, h, hh,
      jsOr, hne]
  · intro h hh he
    simp [getApiKey, h, hh, he, jsOr]
  · intro h hh he
    simp [getApiKey, claude_not_gpt model h, h, hh, he, jsOr]
  · intro h hh he
    simp [getApiKey, gemini_not_gpt model h, gemini_not_claude model h, h, hh,
      he, jsOr]
  · intro decode msgs sys hne hkey
    simp [chatPOST, hne, hkey]

/-- **C4, witness.** -/
theorem C4_credential_precedence_witness :
    getApiKey "gpt-4o"
      { openaiKey := some "header-key", anthropicKey := none, googleKey := none }
      { openaiKey := some "env-key", anthropicKey := none, googleKey := none }
      = some "header-key" ∧
    getApiKey "gpt-4o"
      { openaiKey := none, anthropicKey := none, googleKey := none }
      { openaiKey := none, anthropicKey := none, googleKey := none }
      = none ∧
    chatPOST (fun s => s)
      { messages := some [], model := some "gpt-4o", systemPrompt := none }
      { openaiKey := none, anthropicKey := none, googleKey := none }
      { openaiKey := none, anthropicKey := none, googleKey := none }
      = .err 401 "API key not configured" := by
  refine ⟨(C4_credential_precedence "gpt-4o"
            { openaiKey := some "header-key", anthropicKey := none, googleKey := none }
            { openaiKey := some "env-key", anthropicKey := none, googleKey := none }
            "header-key").1 (by decide) rfl (by decide),
          (C4_credential_precedence "gpt-4o"
            { openaiKey := none, anthropicKey := none, googleKey := none }
            { openaiKey := none, anthropicKey := none, googleKey := none }
            "unused").2.2.2.1 (by decide) rfl rfl,
          (C4_credential_precedence "gpt-4o"
            { openaiKey := none, anthropicKey := none, googleKey := none }
            { openaiKey := none, anthropicKey := none, googleKey := none }
            "unused").2.2.2.2.2.2 (fun s => s) [] none (by decide) (by decide)⟩

/-! ## C2 — request validation order -/

/-- **C2, counterexample.** The claim says a request whose `messages` field
is an empty list gets a 400 before streaming. The code only checks
`!messages || !Array.isArray(messages)`, which an empty array passes, so
with a valid model and credential the request reaches `streamText` with an
empty formatted message list instead of being rejected. -/
theorem C2_counterexample :
    chatPOST (fun s => s)
      { messages := some [], model := some "gpt-4o", systemPrompt := none }
      { openaiKey := some "k", anthropicKey := none, googleKey := none }
      { openaiKey := none, anthropicKey := none, googleKey := none }
      = .ok (.openai "k") none [] ∧
    chatPOST (fun s => s)
      { messages := some [], model := some "gpt-4o", systemPrompt := none }
      { openaiKey := some "k", anthropicKey := none, googleKey := none }
      { openaiKey := none, anthropicKey := none, googleKey := none }
      ≠ .err 400 "Messages array is required" := by
  exact ⟨rfl, by decide⟩

/-- **C2** (amended): the validation pipeline runs in the order
missing-messages-field (400), falsy model (400), unresolvable credential
(401), unroutable model prefix (400); the first check only requires the
`messages` field to be present (an array), so an empty message list passes
validation and proceeds to streaming. -/
theorem C2_validation_order (decode : String → String)
    (msgsField : Option (List Message)) (modelField : Option String)
    (sys : Option String) (headers : HeaderMap) (env : Env) :
    (msgsField = none →
      chatPOST decode
        { messages := msgsField, model := modelField, systemPrompt := sys }
        headers env = .err 400 "Messages array is required") ∧
    (∀ msgs, msgsField = some msgs → modelField = none →
      chatPOST decode
        { messages := msgsField, model := modelField, systemPrompt := sys }
        headers env = .err 400 "Model is required") ∧
    (∀ msgs, msgsField = some msgs → modelField = some "" →
      chatPOST decode
        { messages := msgsField, model := modelField, systemPrompt := sys }
        headers env = .err 400 "Model is required") ∧
    (∀ msgs model, msgsField = some msgs → modelField = some model →
      model ≠ "" → getApiKey model headers env = none →
      chatPOST decode
        { messages := msgsField, model := modelField, systemPrompt := sys }
        headers env = .err 401 "API key not configured") ∧
    (∀ msgs model, msgsField = some msgs → modelField = some model →
      model ≠ "" → getApiKey model headers env = some "" →
      chatPOST decode
        { messages := msgsField, model := modelField, systemPrompt := sys }
        headers env = .err 401 "API key not configured") ∧
    (∀ msgs model k, msgsField = some msgs → modelField = some model →
      model ≠ "" → getApiKey model headers env = some k → k ≠ "" →
      jsStartsWith model "gpt" = false → jsStartsWith model "claude" = false →
      jsStartsWith model "gemini" = false →
      chatPOST decode
        { messages := msgsField, model := modelField, systemPrompt := sys }
        headers env = .err 400 ("Unknown model: " ++ model)) ∧
    (∀ model k p, msgsField = some [] → modelField = some model →
      model ≠ "" → getApiKey model headers env = some k → k ≠ "" →
      getProviderForModel model k = .ok p →
      chatPOST decode
        { messages := msgsField, model := modelField, systemPrompt := sys }
        headers env =
        .ok p (match sys with
               | some s => if s = "" then none else some s
               | none => none) []) := by
  refine ⟨?_, ?_, ?_, ?_, ?_, ?_, ?_⟩
  · intro h
    simp [chatPOST, h]
  · intro msgs hm hmodel
    simp [chatPOST, hm, hmodel]
  · intro msgs hm hmodel
    simp [chatPOST, hm, hmodel]
  · intro msgs model hm hmodel hne hkey
    simp [chatPOST, hm, hmodel, hne, hkey]
  · intro msgs model hm hmodel hne hkey
    simp [chatPOST, hm, hmodel, hne, hkey]
  · intro msgs model k hm hmodel hne hkey hkne h1 h2 h3
    simp [chatPOST, hm, hmodel, hne, hkey, hkne, getProviderForModel, h1, h2, h3]
  · intro model k p hm hmodel hne hkey hkne hprov
    simp [chatPOST, hm, hmodel, hne, hkey, hkne, hprov,
      formatMessagesWithAttachments]

/-- **C2, witness.** -/
theorem C2_validation_order_witness :
    chatPOST (fun s => s)
      { messages := none, model := some "gpt-4o", systemPrompt := none }
      { openaiKey := none, anthropicKey := none, googleKey := none }
      { openaiKey := none, anthropicKey := none, googleKey := none }
      = .err 400 "Messages array is required" ∧
    chatPOST (fun s => s)
      { messages := some [], model := some "gpt-4o", systemPrompt := some "be nice" }
      { openaiKey := some "k", anthropicKey := none, googleKey := none }
      { openaiKey := none, anthropicKey := none, googleKey := none }
      = .ok (.openai "k") (some "be nice") [] := by
  refine ⟨(C2_validation_order (fun s => s) none (some "gpt-4o") none
            { openaiKey := none, anthropicKey := none, googleKey := none }
            { openaiKey := none, anthropicKey := none, googleKey := none }).1 rfl,
          (C2_validation_order (fun s => s) (some []) (some "gpt-4o")
            (some "be nice")
            { openaiKey := some "k", anthropicKey := none, googleKey := none }
            { openaiKey := none, anthropicKey := none, googleKey := none }
            ).2.2.2.2.2.2 "gpt-4o" "k" (.openai "k") rfl rfl
            (by decide) (by decide) (by decide) rfl⟩

/-! ## C5 — attachment formatting -/

/-- **C5, counterexample.** The claim says the first part is a text part if
and only if the message content is non-empty. For a user message with
empty content and a single document attachment, the parts list is exactly
the attachment parts, and a document attachment converts to a *text* part
("[Document: name]\n" plus decoded data) — so the first part is a text
part although the content is empty, refuting the only-if direction. -/
theorem C5_counterexample :
    formatMessage (fun s => s)
      { id := "m1", role := .user, content := "",
        attachments := some [{ id := "a1", type := .document,
                               name := "notes.txt", mimeType := "text/plain",
                               data := "hello", preview := none }],
        createdAt := 0 }
      = .userParts [.text "[Document: notes.txt]\nhello"] ∧
    (Message.content
      { id := "m1", role := .user, content := "",
        attachments := some [{ id := "a1", type := .document,
                               name := "notes.txt", mimeType := "text/plain",
                               data := "hello", preview := none }],
        createdAt := 0 }) = "" := by
  exact ⟨rfl, rfl⟩

/-- **C5** (amended): a user message with a non-empty attachment list
formats to a single multi-part message consisting of a leading text part
holding the message content exactly when the content is non-empty,
followed by one converted part per attachment in the original order (a
part which, for document attachments, is itself a text part); an
assistant message always formats to plain text content with no attachment
parts; formatting maps messages one-to-one. -/
theorem C5_attachment_formatting (decode : String → String) (m : Message)
    (atts : List Attachment) :
    (m.role = .user → m.attachments = some atts → atts ≠ [] →
      (m.content ≠ "" →
        formatMessage decode m =
          .userParts (Part.text m.content
            :: atts.map (convertAttachmentToContent decode))) ∧
      (m.content = "" →
        formatMessage decode m =
          .userParts (atts.map (convertAttachmentToContent decode)))) ∧
    (m.role = .assistant → formatMessage decode m = .assistantText m.content) ∧
    (∀ msgs : List Message,
      (formatMessagesWithAttachments decode msgs).length = msgs.length) := by
  refine ⟨?_, ?_, ?_⟩
  · intro hrole hatt hne
    constructor
    · intro hc
      simp [formatMessage, hatt, hrole, List.isEmpty_iff, hne, hc]
    · intro hc
      simp [formatMessage, hatt, hrole, List.isEmpty_iff, hne, hc]
  · intro hrole
    cases hatt : m.attachments with
    | none => simp [formatMessage, hatt, hrole]
    | some l =>
        cases l with
        | nil => simp [formatMessage, hatt, hrole]
        | cons a as => simp [formatMessage, hatt, hrole]
  · intro msgs
    simp [formatMessagesWithAttachments]

/-- **C5, witness.** -/
theorem C5_attachment_formatting_witness :
    formatMessage (fun s => s)
      { id := "m1", role := .user, content := "look at this",
        attachments := some
          [{ id := "a1", type := .image, name := "pic.png",
             mimeType := "image/png", data := "IMGDATA", preview := none },
           { id := "a2", type := .document, name := "d.txt",
             mimeType := "text/plain", data := "DOC", preview := none }],
        createdAt := 0 }
      = .userParts [Part.text "look at this",
                    Part.image "IMGDATA" "image/png",
                    Part.text "[Document: d.txt]\nDOC"] ∧
    formatMessage (fun s => s)
      { id := "m2", role := .assistant, content := "sure",
        attachments := some [{ id := "a3", type := .image, name := "p.png",
                               mimeType := "image/png", data := "D",
                               preview := none }],
        createdAt := 0 }
      = .assistantText "sure" := by
  refine ⟨?_, ?_⟩
  · have h := (C5_attachment_formatting (fun s => s)
      { id := "m1", role := .user, content := "look at this",
        attachments := some
          [{ id := "a1", type := .image, name := "pic.png",
             mimeType := "image/png", data := "IMGDATA", preview := none },
           { id := "a2", type := .document, name := "d.txt",
             mimeType := "text/plain", data := "DOC", preview := none }],
        createdAt := 0 }
      [{ id := "a1", type := .image, name := "pic.png",
         mimeType := "image/png", data := "IMGDATA", preview := none },
       { id := "a2", type := .document, name := "d.txt",
         mimeType := "text/plain", data := "DOC", preview := none }]).1
      rfl rfl (by decide)
    exact h.1 (by decide)
  · exact (C5_attachment_formatting (fun s => s)
      { id := "m2", role := .assistant, content := "sure",
        attachments := some [{ id := "a3", type := .image, name := "p.png",
                               mimeType := "image/png", data := "D",
                               preview := none }],
        createdAt := 0 } []).2.1 rfl

/-! ## C9 — deleteConversation -/

/-- **C9.** `deleteConversation` keeps exactly the conversations whose id
differs from the target; when the deleted conversation was the current
one, the new current id is the id of the first remaining conversation (or
`none` when none remain); otherwise the current id is unchanged. -/
theorem C9_deleteConversation_spec (s : StoreState) (id : String) :
    ((deleteConversation id s).conversations
      = s.conversations.filter (fun c => c.id ≠ id)) ∧
    (∀ c, c ∈ (deleteConversation id s).conversations ↔
      c ∈ s.conversations ∧ c.id ≠ id) ∧
    (s.currentConversationId = some id →
      (deleteConversation id s).currentConversationId
        = ((s.conversations.filter (fun c => c.id ≠ id)).head?).map
            Conversation.id) ∧
    (s.currentConversationId ≠ some id →
      (deleteConversation id s).currentConversationId
        = s.currentConversationId) := by
  refine ⟨rfl, ?_, ?_, ?_⟩
  · intro c
    simp [deleteConversation, List.mem_filter]
  · intro h
    simp only [deleteConversation, if_pos h]
    cases hf : s.conversations.filter (fun c => c.id ≠ id) with
    | nil => simp [hf]
    | cons c cs => simp [hf]
  · intro h
    simp [deleteConversation, if_neg h]

/-- **C9, witness.** -/
theorem C9_deleteConversation_spec_witness :
    (deleteConversation "b"
      { conversations :=
          [{ id := "a", title := "ta", messages := [], model := "gpt-4o",
             systemPrompt := none, isPinned := false, isArchived := false,
             createdAt := 0, updatedAt := 0 },
           { id := "b", title := "tb", messages := [], model := "gpt-4o",
             systemPrompt := none, isPinned := false, isArchived := false,
             createdAt := 1, updatedAt := 1 }],
        currentConversationId := some "b" }).currentConversationId
      = some "a" := by
  have h := (C9_deleteConversation_spec
    { conversations :=
        [{ id := "a", title := "ta", messages := [], model := "gpt-4o",
           systemPrompt := none, isPinned := false, isArchived := false,
           createdAt := 0, updatedAt := 0 },
         { id := "b", title := "tb", messages := [], model := "gpt-4o",
           systemPrompt := none, isPinned := false, isArchived := false,
           createdAt := 1, updatedAt := 1 }],
      currentConversationId := some "b" } "b").2.2.1 rfl
  rw [h]
  rfl

/-! ## C10 — frame property of the store mutations -/

theorem map_ite_frame (l : List Conversation) (id : String)
    (g : Conversation → Conversation) (i : Nat) (c : Conversation)
    (hi : l[i]? = some c) (hne : c.id ≠ id) :
    (l.map (fun x => if x.id = id then g x else x))[i]? = some c := by
  rw [List.getElem?_map, hi]
  simp [hne]

theorem map_ite_id (l : List Conversation) (id : String)
    (g : Conversation → Conversation)
    (h : id ∉ l.map Conversation.id) :
    l.map (fun x => if x.id = id then g x else x) = l := by
  have hx : ∀ x ∈ l, (if x.id = id then g x else x) = x := by
    intro x hxl
    rw [if_neg]
    intro heq
    exact h (heq ▸ List.mem_map_of_mem Conversation.id hxl)
  calc l.map (fun x => if x.id = id then g x else x)
      = l.map (fun x => x) := List.map_congr_left hx
    _ = l := List.map_id _

/-- **C10.** Each of the five store mutations leaves every conversation at
a position whose id differs from the target untouched (same element at
the same index), and when no conversation carries the target id the whole
list is unchanged. -/
theorem C10_store_mutation_frame (s : StoreState) (id mid : String)
    (u : ConversationUpdate) (msg : Message) (content : String) (now : Nat) :
    (∀ (i : Nat) (c : Conversation), s.conversations[i]? = some c → c.id ≠ id →
      (updateConversation id u now s).conversations[i]? = some c) ∧
    (∀ (i : Nat) (c : Conversation), s.conversations[i]? = some c → c.id ≠ id →
      (pinConversation id now s).conversations[i]? = some c) ∧
    (∀ (i : Nat) (c : Conversation), s.conversations[i]? = some c → c.id ≠ id →
      (archiveConversation id now s).conversations[i]? = some c) ∧
    (∀ (i : Nat) (c : Conversation), s.conversations[i]? = some c → c.id ≠ id →
      (addMessage id msg now s).conversations[i]? = some c) ∧
    (∀ (i : Nat) (c : Conversation), s.conversations[i]? = some c → c.id ≠ id →
      (updateMessage id mid content now s).conversations[i]? = some c) ∧
    (id ∉ s.conversations.map Conversation.id →
      (updateConversation id u now s).conversations = s.conversations ∧
      (pinConversation id now s).conversations = s.conversations ∧
      (archiveConversation id now s).conversations = s.conversations ∧
      (addMessage id msg now s).conversations = s.conversations ∧
      (updateMessage id mid content now s).conversations = s.conversations) := by
  refine ⟨?_, ?_, ?_, ?_, ?_, ?_⟩
  · intro i c hi hne
    exact map_ite_frame s.conversations id _ i c hi hne
  · intro i c hi hne
    exact map_ite_frame s.conversations id _ i c hi hne
  · intro i c hi hne
    exact map_ite_frame s.conversations id _ i c hi hne
  · intro i c hi hne
    exact map_ite_frame s.conversations id _ i c hi hne
  · intro i c hi hne
    exact map_ite_frame s.conversations id _ i c hi hne
  · intro h
    exact ⟨map_ite_id s.conversations id _ h, map_ite_id s.conversations id _ h,
           map_ite_id s.conversations id _ h, map_ite_id s.conversations id _ h,
           map_ite_id s.conversations id _ h⟩

/-- **C10, witness.** -/
theorem C10_store_mutation_frame_witness :
    (pinConversation "zzz" 9
      { conversations :=
          [{ id := "a", title := "ta", messages := [], model := "gpt-4o",
             systemPrompt := none, isPinned := false, isArchived := false,
             createdAt := 0, updatedAt := 0 }],
        currentConversationId := none }).conversations
      = [{ id := "a", title := "ta", messages := [], model := "gpt-4o",
           systemPrompt := none, isPinned := false, isArchived := false,
           createdAt := 0, updatedAt := 0 }] := by
  exact ((C10_store_mutation_frame
    { conversations :=
        [{ id := "a", title := "ta", messages := [], model := "gpt-4o",
           systemPrompt := none, isPinned := false, isArchived := false,
           createdAt := 0, updatedAt := 0 }],
      currentConversationId := none } "zzz" "m" {}
      { id := "x", role := .user, content := "c", attachments := none,
        createdAt := 0 } "newc" 9).2.2.2.2.2 (by decide)).2.1

/-! ## C1 — commit idempotency -/

theorem msgIdCount_addMessage (cid : String) (msg : Message) (now : Nat)
    (st : StoreState) :
    msgIdCount cid msg.id (addMessage cid msg now st).conversations
      = msgIdCount cid msg.id st.conversations
        + (st.conversations.filter (fun c => c.id = cid)).length := by
  obtain ⟨convs, cur⟩ := st
  simp only [addMessage]
  induction convs with
  | nil => rfl
  | cons a as ih =>
    by_cases h : a.id = cid
    · simp only [List.map_cons, msgIdCount, List.filter_cons]
      simp [h, List.filter_append, ih]
      omega
    · simp only [List.map_cons, msgIdCount, List.filter_cons]
      simp [h, ih]

theorem onFinish_mem (cid : String) (m : UIMessage) (t : Nat)
    (s : ContainerState) (h : m.id ∈ s.savedMessageIds) :
    onFinish (some cid) m t s = s := by
  simp [onFinish, h]

theorem onFinish_foldl_mem (cid : String) (m : UIMessage) (ts : List Nat)
    (s : ContainerState) (h : m.id ∈ s.savedMessageIds) :
    ts.foldl (fun st t => onFinish (some cid) m t st) s = s := by
  induction ts with
  | nil => rfl
  | cons t ts ih =>
    rw [List.foldl_cons, onFinish_mem cid m t s h]
    exact ih

/-- **C1.** Starting from a state in which the assistant message id is not
yet committed, a run of one or more completion signals for that same id
equals the effect of the first signal alone (every later one is a no-op),
and that first signal appends the id to the target conversation's message
list exactly once. -/
theorem C1_commit_idempotency (s : ContainerState) (cid : String)
    (m : UIMessage) (t0 : Nat) (ts : List Nat)
    (h1 : m.id ∉ s.savedMessageIds)
    (h2 : (s.store.conversations.filter (fun c => c.id = cid)).length = 1)
    (h3 : msgIdCount cid m.id s.store.conversations = 0) :
    ((t0 :: ts).foldl (fun st t => onFinish (some cid) m t st) s
      = onFinish (some cid) m t0 s) ∧
    msgIdCount cid m.id
      (((t0 :: ts).foldl (fun st t => onFinish (some cid) m t st)
        s).store.conversations) = 1 ∧
    m.id ∈ ((t0 :: ts).foldl (fun st t => onFinish (some cid) m t st)
        s).savedMessageIds := by
  have hstep : onFinish (some cid) m t0 s =
      { s with
        savedMessageIds := m.id :: s.savedMessageIds
        store := addMessage cid
          { id := m.id, role := .assistant, content := m.content,
            attachments := none, createdAt := t0 } t0 s.store } := by
    simp [onFinish, h1]
  have hfold : (t0 :: ts).foldl (fun st t => onFinish (some cid) m t st) s
      = onFinish (some cid) m t0 s := by
    rw [List.foldl_cons]
    apply onFinish_foldl_mem
    rw [hstep]
    exact List.mem_cons_self _ _
  refine ⟨hfold, ?_, ?_⟩
  · rw [hfold, hstep]
    have := msgIdCount_addMessage cid
      { id := m.id, role := .assistant, content := m.content,
        attachments := none, createdAt := t0 } t0 s.store
    simp only at this
    rw [this, h2, h3]
  · rw [hfold, hstep]
    exact List.mem_cons_self _ _

/-- **C1, witness.** Three completion signals for the same assistant
message id commit it once. -/
theorem C1_commit_idempotency_witness :
    msgIdCount "c1" "a1"
      (([5, 6, 7].foldl
        (fun st t => onFinish (some "c1")
          { id := "a1", role := .assistant, content := "hello" } t st)
        { savedMessageIds := [], chatMessages := [],
          store :=
            { conversations :=
                [{ id := "c1", title := "新对话", messages := [],
                   model := "gpt-4o", systemPrompt := none, isPinned := false,
                   isArchived := false, createdAt := 0, updatedAt := 0 }],
              currentConversationId := some "c1" } }).store.conversations)
      = 1 := by
  exact (C1_commit_idempotency
    { savedMessageIds := [], chatMessages := [],
      store :=
        { conversations :=
            [{ id := "c1", title := "新对话", messages := [],
               model := "gpt-4o", systemPrompt := none, isPinned := false,
               isArchived := false, createdAt := 0, updatedAt := 0 }],
          currentConversationId := some "c1" } }
    "c1" { id := "a1", role := .assistant, content := "hello" } 5 [6, 7]
    (by decide) (by decide) (by decide)).2.1

/-! ## C7 — regenerate truncation -/

/-- **C7.** For a working history `[U1, A1, U2, A2]` whose earlier
messages do not share `A2`'s id, regenerating `A2` truncates the working
history to `[U1, A1, U2]` and removes `A2`'s id from the commit-dedupe
set. -/
theorem C7_regenerate_truncation (u1 a1 u2 a2 : UIMessage)
    (s : ContainerState) (hmsgs : s.chatMessages = [u1, a1, u2, a2])
    (hid1 : u1.id ≠ a2.id) (hid2 : a1.id ≠ a2.id) (hid3 : u2.id ≠ a2.id) :
    (handleRegenerate a2.id s).chatMessages = [u1, a1, u2] ∧
    a2.id ∉ (handleRegenerate a2.id s).savedMessageIds := by
  constructor
  · simp [handleRegenerate, hmsgs, hid1, hid2, hid3]
  · simp [handleRegenerate, hmsgs, hid1, hid2, hid3, List.mem_filter]

/-- **C7, witness.** -/
theorem C7_regenerate_truncation_witness :
    (handleRegenerate "a2"
      { savedMessageIds := ["a2", "a1"],
        chatMessages :=
          [{ id := "u1", role := .user, content := "q1" },
           { id := "a1", role := .assistant, content := "r1" },
           { id := "u2", role := .user, content := "q2" },
           { id := "a2", role := .assistant, content := "r2" }],
        store := { conversations := [], currentConversationId := none } }
      ).chatMessages
      = [{ id := "u1", role := .user, content := "q1" },
         { id := "a1", role := .assistant, content := "r1" },
         { id := "u2", role := .user, content := "q2" }] ∧
    "a2" ∉ (handleRegenerate "a2"
      { savedMessageIds := ["a2", "a1"],
        chatMessages :=
          [{ id := "u1", role := .user, content := "q1" },
           { id := "a1", role := .assistant, content := "r1" },
           { id := "u2", role := .user, content := "q2" },
           { id := "a2", role := .assistant, content := "r2" }],
        store := { conversations := [], currentConversationId := none } }
      ).savedMessageIds := by
  exact C7_regenerate_truncation
    { id := "u1", role := .user, content := "q1" }
    { id := "a1", role := .assistant, content := "r1" }
    { id := "u2", role := .user, content := "q2" }
    { id := "a2", role := .assistant, content := "r2" }
    { savedMessageIds := ["a2", "a1"],
      chatMessages :=
        [{ id := "u1", role := .user, content := "q1" },
         { id := "a1", role := .assistant, content := "r1" },
         { id := "u2", role := .user, content := "q2" },
         { id := "a2", role := .assistant, content := "r2" }],
      store := { conversations := [], currentConversationId := none } }
    rfl (by decide) (by decide) (by decide)

/-! ## C6 — fallback title -/

theorem collapseWs_ne_nil (l : List Char) (h : l ≠ []) :
    collapseWs l ≠ [] := by
  cases l with
  | nil => exact absurd rfl h
  | cons c rest =>
      unfold collapseWs collapseWsAux
      by_cases hw : jsWhitespace c
      · simp [hw]
      · simp [hw]

theorem titleAfterSentenceCut_ne_nil (t : List Char) (h : t ≠ []) :
    titleAfterSentenceCut t ≠ [] := by
  unfold titleAfterSentenceCut
  cases hf : t.findIdx? isSentenceEnd with
  | none => exact h
  | some j =>
      dsimp only
      by_cases hc : 0 < j ∧ j < MAX_TITLE_LENGTH
      · rw [if_pos hc]
        intro hnil
        rcases List.take_eq_nil_iff.mp hnil with h1 | h1
        · exact Nat.succ_ne_zero j h1
        · exact h h1
      · rw [if_neg hc]
        exact h

theorem truncateWithEllipsis_ne_nil (t : List Char) (h : t ≠ []) :
    truncateWithEllipsis t ≠ [] := by
  unfold truncateWithEllipsis
  by_cases hl : t.length > MAX_TITLE_LENGTH
  · simp [hl]
  · simp only [hl, if_neg, not_false_iff]
    exact h

theorem truncateWithEllipsis_length (t : List Char) :
    (truncateWithEllipsis t).length ≤ 50 := by
  unfold truncateWithEllipsis MAX_TITLE_LENGTH
  by_cases hl : t.length > 50
  · simp only [hl, if_pos, List.length_append, List.length_take]
    have : "...".toList.length = 3 := rfl
    omega
  · simp only [hl, if_neg, not_false_iff]
    omega

/-- **C6** (amended): the fallback title always has length ≤ 50 and is
non-empty; blank input yields the fixed placeholder; writing `t` for the
whitespace-collapsed trimmed input, when the first sentence-terminal mark
of `t` sits at an index `j` with `0 < j < 50` the title is `t` cut after
that mark; when `t` has no such mark the title is `t` itself if it fits in
50 characters and otherwise its first 47 characters plus an ellipsis. (The
code requires `sentenceEnd > 0`, so a mark at index 0 does *not* trigger
the sentence cut, unlike what the claim states.) -/
theorem C6_fallback_title (msg : String) :
    ((generateFallbackTitle msg).length ≤ 50) ∧
    (generateFallbackTitle msg ≠ "") ∧
    (trimChars msg.toList = [] → generateFallbackTitle msg = "新对话") ∧
    (∀ j : Nat,
      (collapseWs (trimChars msg.toList)).findIdx? isSentenceEnd = some j →
      0 < j → j < 50 →
      generateFallbackTitle msg
        = String.mk ((collapseWs (trimChars msg.toList)).take (j + 1))) ∧
    (trimChars msg.toList ≠ [] →
      (collapseWs (trimChars msg.toList)).findIdx? isSentenceEnd = none →
      (collapseWs (trimChars msg.toList)).length ≤ 50 →
      generateFallbackTitle msg = String.mk (collapseWs (trimChars msg.toList))) ∧
    ((collapseWs (trimChars msg.toList)).findIdx? isSentenceEnd = none →
      (collapseWs (trimChars msg.toList)).length > 50 →
      generateFallbackTitle msg
        = String.mk ((collapseWs (trimChars msg.toList)).take 47
            ++ "...".toList)) := by
  refine ⟨?_, ?_, ?_, ?_, ?_, ?_⟩
  · show (generateFallbackTitleChars msg.toList).length ≤ 50
    unfold generateFallbackTitleChars
    by_cases h : (trimChars msg.toList).isEmpty
    · simp only [h, if_pos]
      decide
    · simp only [h, if_neg, not_false_iff]
      exact truncateWithEllipsis_length _
  · intro hcontra
    have hdata : generateFallbackTitleChars msg.toList = [] :=
      congrArg String.data hcontra
    revert hdata
    unfold generateFallbackTitleChars
    by_cases h : (trimChars msg.toList).isEmpty
    · simp only [h, if_pos]
      decide
    · simp only [h, if_neg, not_false_iff]
      exact truncateWithEllipsis_ne_nil _
        (titleAfterSentenceCut_ne_nil _
          (collapseWs_ne_nil _ (by simpa [List.isEmpty_iff] using h)))
  · intro h
    show String.mk (generateFallbackTitleChars msg.toList) = _
    unfold generateFallbackTitleChars
    rw [if_pos (List.isEmpty_iff.mpr h)]
    rfl
  · intro j hf h0 hj
    have htr : trimChars msg.toList ≠ [] := by
      intro he
      rw [he] at hf
      simp [collapseWs, collapseWsAux, List.findIdx?] at hf
    show String.mk (generateFallbackTitleChars msg.toList) = _
    unfold generateFallbackTitleChars
    rw [if_neg (fun hc => htr (List.isEmpty_iff.mp hc))]
    have hcut : titleAfterSentenceCut (collapseWs (trimChars msg.toList))
        = (collapseWs (trimChars msg.toList)).take (j + 1) := by
      unfold titleAfterSentenceCut
      rw [hf]
      exact if_pos ⟨h0, hj⟩
    rw [hcut]
    unfold truncateWithEllipsis MAX_TITLE_LENGTH
    rw [if_neg]
    rw [List.length_take]
    omega
  · intro htr hf hlen
    show String.mk (generateFallbackTitleChars msg.toList) = _
    unfold generateFallbackTitleChars
    rw [if_neg (fun hc => htr (List.isEmpty_iff.mp hc))]
    have hcut : titleAfterSentenceCut (collapseWs (trimChars msg.toList))
        = collapseWs (trimChars msg.toList) := by
      unfold titleAfterSentenceCut
      rw [hf]
    rw [hcut]
    unfold truncateWithEllipsis MAX_TITLE_LENGTH
    rw [if_neg]
    omega
  · intro hf hlen
    have htr : trimChars msg.toList ≠ [] := by
      intro he
      rw [he] at hlen
      simp [collapseWs, collapseWsAux] at hlen
    show String.mk (generateFallbackTitleChars msg.toList) = _
    unfold generateFallbackTitleChars
    rw [if_neg (fun hc => htr (List.isEmpty_iff.mp hc))]
    have hcut : titleAfterSentenceCut (collapseWs (trimChars msg.toList))
        = collapseWs (trimChars msg.toList) := by
      unfold titleAfterSentenceCut
      rw [hf]
    rw [hcut]
    unfold truncateWithEllipsis MAX_TITLE_LENGTH
    rw [if_pos hlen]

/-- **C6, witness.** -/
theorem C6_fallback_title_witness :
    (generateFallbackTitle "  \n ").length ≤ 50 ∧
    generateFallbackTitle "  \n " = "新对话" ∧
    generateFallbackTitle "Hello world. More text follows here"
      = String.mk ((collapseWs
          (trimChars "Hello world. More text follows here".toList)).take 12) := by
  refine ⟨(C6_fallback_title "  \n ").1,
          (C6_fallback_title "  \n ").2.2.1 (by decide),
          (C6_fallback_title "Hello world. More text follows here").2.2.2.1
            11 (by decide) (by decide) (by decide)⟩

/-- **C6, counterexample.** The claim says the fallback keeps the text up
to and including the first sentence-terminal mark whenever that mark
occurs within the first 50 characters. For an input whose first character
is `'.'` followed by sixty `'a'`s, the first mark sits at index 0 — within
the first 50 characters — yet the code (which requires `sentenceEnd > 0`)
does not cut there and instead truncates to 47 characters plus an
ellipsis. -/
theorem C6_counterexample :
    generateFallbackTitle ".aaaaaaaaaaaaaaaaaaaaaaaaaaaaaaaaaaaaaaaaaaaaaaaaaaaaaaaaaaaa"
      = ".aaaaaaaaaaaaaaaaaaaaaaaaaaaaaaaaaaaaaaaaaaaaaa..." ∧
    (collapseWs (trimChars
        ".aaaaaaaaaaaaaaaaaaaaaaaaaaaaaaaaaaaaaaaaaaaaaaaaaaaaaaaaaaaa".toList)
      ).findIdx? isSentenceEnd = some 0 ∧
    generateFallbackTitle ".aaaaaaaaaaaaaaaaaaaaaaaaaaaaaaaaaaaaaaaaaaaaaaaaaaaaaaaaaaaa"
      ≠ String.mk ((collapseWs (trimChars
          ".aaaaaaaaaaaaaaaaaaaaaaaaaaaaaaaaaaaaaaaaaaaaaaaaaaaaaaaaaaaa".toList)
        ).take (0 + 1)) := by
  refine ⟨rfl, by decide, by decide⟩

/-! ## C8 — loading persisted conversations -/

theorem mapM_loop_parseDoc (docs : List RawDoc) (acc : List Conversation) :
    (RawDoc.corrupt ∈ docs →
      List.mapM.loop parseDoc docs acc
        = .error "SyntaxError: Unexpected token in JSON") ∧
    (RawDoc.corrupt ∉ docs →
      List.mapM.loop parseDoc docs acc
        = .ok (acc.reverse ++ docs.filterMap (fun d =>
            match d with | .valid c => some c | .corrupt => none))) := by
  induction docs generalizing acc with
  | nil =>
      refine ⟨fun h => absurd h (List.not_mem_nil _), fun _ => ?_⟩
      show Except.ok acc.reverse = _
      simp
  | cons d ds ih =>
      constructor
      · intro h
        cases d with
        | corrupt => rfl
        | valid c =>
            have hmem : RawDoc.corrupt ∈ ds := by
              rcases List.mem_cons.mp h with h1 | h1
              · exact absurd h1.symm (by simp)
              · exact h1
            show List.mapM.loop parseDoc ds (c :: acc)
              = .error "SyntaxError: Unexpected token in JSON"
            exact (ih (c :: acc)).1 hmem
      · intro h
        cases d with
        | corrupt => exact absurd (List.mem_cons_self _ _) h
        | valid c =>
            have hnot : RawDoc.corrupt ∉ ds := fun hm =>
              h (List.mem_cons_of_mem _ hm)
            show List.mapM.loop parseDoc ds (c :: acc) = _
            rw [(ih (c :: acc)).2 hnot]
            simp [List.filterMap_cons]

/-- **C8, counterexample.** The claim says a corrupt persisted document is
skipped and the remaining documents still load. In the code the
`Promise.all` mapper calls `JSON.parse` with no per-file handler, so one
corrupt document rejects the whole batch: with a corrupt file alongside a
perfectly good one, `readConversations` throws instead of returning the
good conversation. -/
theorem C8_counterexample :
    readConversations
      [RawDoc.corrupt,
       RawDoc.valid { id := "good", title := "t", messages := [],
                      model := "gpt-4o", systemPrompt := none,
                      isPinned := false, isArchived := false,
                      createdAt := 0, updatedAt := 0 }]
      = .error "SyntaxError: Unexpected token in JSON" ∧
    readConversations
      [RawDoc.corrupt,
       RawDoc.valid { id := "good", title := "t", messages := [],
                      model := "gpt-4o", systemPrompt := none,
                      isPinned := false, isArchived := false,
                      createdAt := 0, updatedAt := 0 }]
      ≠ .ok [{ id := "good", title := "t", messages := [],
               model := "gpt-4o", systemPrompt := none,
               isPinned := false, isArchived := false,
               createdAt := 0, updatedAt := 0 }] := by
  constructor
  · rfl
  · rw [show readConversations
        [RawDoc.corrupt,
         RawDoc.valid { id := "good", title := "t", messages := [],
                        model := "gpt-4o", systemPrompt := none,
                        isPinned := false, isArchived := false,
                        createdAt := 0, updatedAt := 0 }]
        = .error "SyntaxError: Unexpected token in JSON" from rfl]
    simp

/-- **C8** (amended): a corrupt persisted document is *not* skipped — its
presence makes the whole `readConversations` call throw; only when every
document parses does loading succeed, with the parsed conversations
sorted by `updatedAt` descending. -/
theorem C8_corrupt_fails_load (docs : List RawDoc) :
    (RawDoc.corrupt ∈ docs →
      readConversations docs
        = .error "SyntaxError: Unexpected token in JSON") ∧
    (RawDoc.corrupt ∉ docs →
      readConversations docs
        = .ok (sortByUpdatedAtDesc (docs.filterMap (fun d =>
            match d with | .valid c => some c | .corrupt => none)))) := by
  have hloop := mapM_loop_parseDoc docs []
  constructor
  · intro h
    show sortByUpdatedAtDesc <$> List.mapM.loop parseDoc docs [] = _
    rw [hloop.1 h]
    rfl
  · intro h
    show sortByUpdatedAtDesc <$> List.mapM.loop parseDoc docs [] = _
    rw [hloop.2 h]
    rfl

/-- **C8, witness.** -/
theorem C8_corrupt_fails_load_witness :
    readConversations [RawDoc.corrupt]
      = .error "SyntaxError: Unexpected token in JSON" ∧
    readConversations
      [RawDoc.valid { id := "c1", title := "t1", messages := [],
                      model := "gpt-4o", systemPrompt := none,
                      isPinned := false, isArchived := false,
                      createdAt := 0, updatedAt := 0 },
       RawDoc.valid { id := "c2", title := "t2", messages := [],
                      model := "gpt-4o", systemPrompt := none,
                      isPinned := false, isArchived := false,
                      createdAt := 1, updatedAt := 1 }]
      = .ok (sortByUpdatedAtDesc
          [{ id := "c1", title := "t1", messages := [], model := "gpt-4o",
             systemPrompt := none, isPinned := false, isArchived := false,
             createdAt := 0, updatedAt := 0 },
           { id := "c2", title := "t2", messages := [], model := "gpt-4o",
             systemPrompt := none, isPinned := false, isArchived := false,
             createdAt := 1, updatedAt := 1 }]) := by
  refine ⟨(C8_corrupt_fails_load [RawDoc.corrupt]).1 (by simp),
          (C8_corrupt_fails_load _).2 (by simp)⟩

end ChatAI
